import Mathlib

/-!
Verification of the rendering-job orchestration in
`open-template-in-editor-save-file-sample.py`: the submit → poll → fetch-or-fail
flow implemented in `SimpleHTTPRequestHandler.do_POST` together with the helper
functions `create_project`, `check_project_results` and `download_file`.

The embedding is shallow: the parsed JSON values the script manipulates become
an inductive `Json` type; Python dictionary subscription `d["k"]`, attribute
access `d.k` and `==` comparison against a string literal become total Lean
functions returning `Except PyError _` where Python would raise; the `while`
polling loop of `do_POST` becomes structural recursion on the remaining
iteration budget (`remaining = 20 - counter`, the loop increments `counter`
once per iteration); the observable effects of a run (`time.sleep(3)` calls,
`check_project_results` calls, `download_file` calls) are threaded through an
explicit `RunTrace`.  The remote side is an oracle `responses : Nat → Json`
giving the decoded body of the i-th status query.
-/

/-- Decoded JSON values, as produced by `json.loads` in the script. -/
inductive Json where
  | null : Json
  | bool : Bool → Json
  | num : Int → Json
  | str : String → Json
  | arr : List Json → Json
  | obj : List (String × Json) → Json

/-- The Python exceptions the modelled code can raise. -/
inductive PyError where
  | keyError : String → PyError
  | attributeError : String → PyError
  | typeError : PyError
  | valueError : PyError
deriving DecidableEq

/-- Python subscription `j[k]` with a string key: key lookup on a dict
(`KeyError` when absent), `TypeError` on any other decoded-JSON value. -/
def Json.getItem : Json → String → Except PyError Json
  | .obj kvs, k =>
    match kvs.lookup k with
    | some v => .ok v
    | none => .error (.keyError k)
  | _, _ => .error .typeError

/-- Python attribute access `j.a` for a plain data name: decoded-JSON values
(dict, list, str, int, bool, NoneType) carry no such attribute, so the access
raises `AttributeError`.  The modelled script performs exactly one such
access, `project_results.statusDescription` (line 449). -/
def Json.getAttr (_ : Json) (a : String) : Except PyError Json :=
  .error (.attributeError a)

/-- Python `j == "lit"`: true only when `j` is the equal string; comparing a
non-string decoded-JSON value with a string yields `False`, not an error. -/
def Json.eqStr : Json → String → Bool
  | .str s, t => s == t
  | _, _ => false

/-- Python `str(j)` for the values that reach an f-string in the modelled
flows (the API returns strings in `url` and `name`); container reprs are not
modelled because no modelled run formats one. -/
def Json.pyStr : Json → String
  | .str s => s
  | .num n => toString n
  | .bool true => "True"
  | .bool false => "False"
  | .null => "None"
  | .arr _ => ""
  | .obj _ => ""

/-- Observable effects of one `do_POST` run: number of `time.sleep(3)` calls,
number of `check_project_results` status queries, and the
`download_file(url, filename)` calls in order. -/
structure RunTrace where
  sleeps : Nat
  queries : Nat
  downloads : List (String × String)
deriving DecidableEq

/-- `counter < 20` bound of the polling loop (line 423). -/
def maxAttempts : Nat := 20

/-- `time.sleep(3)` delay of the polling loop (line 424), in seconds. -/
def interval : Nat := 3

/-- The `for result_info in file_details:` loop of the `Completed` branch
(lines 436–440): each element yields `download_file(result_info["url"],
f'{result_info["name"]}.pdf')`; subscription failures raise out of the loop,
keeping the downloads already performed. -/
def downloadItems : List Json → RunTrace → RunTrace × Except PyError Unit
  | [], tr => (tr, .ok ())
  | ri :: rest, tr =>
    match ri.getItem "url" with
    | .error e => (tr, .error e)
    | .ok u =>
      match ri.getItem "name" with
      | .error e => (tr, .error e)
      | .ok n =>
        downloadItems rest
          { tr with downloads := tr.downloads ++ [(u.pyStr, n.pyStr ++ ".pdf")] }

/-- Iterating `file_details`: the API field is a JSON array; iterating a
non-array decoded value is modelled as `TypeError`. -/
def iterateFileDetails (fileDetails : Json) (tr : RunTrace) :
    RunTrace × Except PyError Unit :=
  match fileDetails with
  | .arr items => downloadItems items tr
  | _ => (tr, .error .typeError)

/-- The `while isPending and counter < 20:` loop of `do_POST` (lines
418–456), with `remaining = 20 - counter` as the structural fuel (the loop
body increments `counter` exactly once per iteration, so the bound
`counter < 20` is exactly `remaining > 0`).  Each iteration:
`time.sleep(3)`; evaluate `project["id"]` (raises when the submit response
carried no id); call `check_project_results` (the oracle `responses` indexed
by queries issued so far); read `project_results["status"]`; on
`"Completed"` download every file detail and clear `isPending` with
`isSuccess = True`; on `"Failed"` evaluate
`project_results.statusDescription` — an attribute access on a dict, so an
`AttributeError` (line 449); otherwise loop again.  An uncaught exception
aborts the run, keeping the trace accumulated so far. -/
def pollLoop (responses : Nat → Json) (project : Json) (isPending : Bool)
    (remaining : Nat) (isSuccess : Bool) (failureDetails : String)
    (tr : RunTrace) : RunTrace × Except PyError (Bool × String) :=
  match isPending, remaining with
  | false, _ => (tr, .ok (isSuccess, failureDetails))
  | true, 0 => (tr, .ok (isSuccess, failureDetails))
  | true, r + 1 =>
    let tr1 : RunTrace := { tr with sleeps := tr.sleeps + 1 }
    match project.getItem "id" with
    | .error e => (tr1, .error e)
    | .ok _ =>
      let projectResults := responses tr1.queries
      let tr2 : RunTrace := { tr1 with queries := tr1.queries + 1 }
      match projectResults.getItem "status" with
      | .error e => (tr2, .error e)
      | .ok projectStatus =>
        if projectStatus.eqStr "Completed" then
          match projectResults.getItem "outputFileDetails" with
          | .error e => (tr2, .error e)
          | .ok fileDetails =>
            match iterateFileDetails fileDetails tr2 with
            | (tr3, .error e) => (tr3, .error e)
            | (tr3, .ok ()) =>
              pollLoop responses project false r true failureDetails tr3
        else if projectStatus.eqStr "Failed" then
          match projectResults.getAttr "statusDescription" with
          | .error e => (tr2, .error e)
          | .ok fd =>
            pollLoop responses project false r false fd.pyStr tr2
        else
          pollLoop responses project true r isSuccess failureDetails tr2

/-- The HTTP response `do_POST` sends back (lines 458–472). -/
structure HttpResponse where
  status : Nat
  contentType : String
  body : String
deriving DecidableEq

/-- The whole `do_POST` orchestration after the request body is parsed:
`submitResult` is the outcome of `create_project` (the decoded JSON of the
submit response, or the exception the submit raised); then the polling loop
runs from `isPending = True`, `isSuccess = False`, `failureDetails = ''`,
`counter = 0`; finally the response is sent — status 200 and content type
`text/html` on both branches, body `'Successfully saved a file.'` when
`isSuccess` and `'Failed to render a file.' + failureDetails` otherwise.
An uncaught exception means no response is sent. -/
def do_POST (submitResult : Except PyError Json) (responses : Nat → Json) :
    RunTrace × Except PyError HttpResponse :=
  match submitResult with
  | .error e => ({ sleeps := 0, queries := 0, downloads := [] }, .error e)
  | .ok project =>
    match pollLoop responses project true maxAttempts false ""
        { sleeps := 0, queries := 0, downloads := [] } with
    | (tr, .error e) => (tr, .error e)
    | (tr, .ok (isSuccess, failureDetails)) =>
      if isSuccess then
        (tr, .ok { status := 200, contentType := "text/html",
                   body := "Successfully saved a file." })
      else
        (tr, .ok { status := 200, contentType := "text/html",
                   body := "Failed to render a file." ++ failureDetails })

/-! ## `download_file` (lines 186–197)

Two views of the same function.  The content view below is used for the
fetch round-trip property: the remote body is a byte list, `r.read(chunk_size)`
returns the next `min(chunk_size, remaining)` bytes, and the local file is
the concatenation of the chunks written.  The event view
(`download_file_events`, further down) makes the read/write exit paths
explicit in order to track whether `r.release_conn()` runs. -/

/-- `chunk_size = 1024*1024` (line 190). -/
def chunk_size : Nat := 1024 * 1024

/-- The chunks the `while True: data = r.read(chunk_size)` loop reads from a
remote body: successive slices of at most `chunk_size` bytes, stopping at the
empty read. -/
def readChunks (body : List Nat) : List (List Nat) :=
  if h : body = [] then []
  else body.take chunk_size :: readChunks (body.drop chunk_size)
termination_by body.length
decreasing_by
  simp only [List.length_drop, chunk_size]
  have : 0 < body.length := List.length_pos.mpr h
  omega

/-- `download_file(url, filename)`, content view: the local file `filename`
receives the concatenation of the chunks read from the remote body at `url`
(`remote` maps a url to the remote content bytes). -/
def download_file (remote : String → List Nat) (url : String)
    (filename : String) : String × List Nat :=
  (filename, (readChunks (remote url)).flatten)

/-- One result descriptor of a `Completed` status response: `outputFileDetails[i]`
is `{ url, name }` (spec §3 `ResultDescriptor`). -/
structure ResultDescriptor where
  url : String
  name : String

/-- The fetch phase of the `Completed` branch (lines 436–440): for each
descriptor, `download_file(result_info["url"], f'{result_info["name"]}.pdf')`. -/
def fetch (remote : String → List Nat) (details : List ResultDescriptor) :
    List (String × List Nat) :=
  details.map (fun d => download_file remote d.url (d.name ++ ".pdf"))

/-- One interaction of the `download_file` loop with the transport and the
local file: a successful `r.read` returning `data` followed by an
`out.write(data)` that succeeds or raises (`writeOk`), or an `r.read` that
raises. -/
inductive ReadEvent where
  | chunk : List Nat → Bool → ReadEvent
  | readErr : ReadEvent

/-- Outcome of one `download_file` call in the event view: the bytes written
to the local file, whether `r.release_conn()` ran, and whether the call
raised. -/
structure DownloadRun where
  written : List Nat
  released : Bool
  raised : Bool
deriving DecidableEq

/-- The `while True:` read/write loop of `download_file` followed by
`r.release_conn()` (lines 191–197).  `release_conn` is the statement after
the `with` block, not a `finally`: an exception from `r.read` or
`out.write` propagates past it, so it runs only when the loop breaks on an
empty read.  The end of the event list is the end of the stream (further
reads return `b''`). -/
def download_file_events : List ReadEvent → List Nat → DownloadRun
  | [], w => { written := w, released := true, raised := false }
  | .readErr :: _, w => { written := w, released := false, raised := true }
  | .chunk [] _ :: _, w => { written := w, released := true, raised := false }
  | .chunk data true :: rest, w => download_file_events rest (w ++ data)
  | .chunk _ false :: _, w => { written := w, released := false, raised := true }

/-- `download_file` in the event view, started with an empty local file. -/
def download_file_run (events : List ReadEvent) : DownloadRun :=
  download_file_events events []

/-- A status response whose `status` field is `"Completed"` or `"Failed"`
(the terminal statuses). -/
def terminalResp (j : Json) : Bool :=
  match j.getItem "status" with
  | .ok s => s.eqStr "Completed" || s.eqStr "Failed"
  | .error _ => false

/-- A status response whose `status` field is present and neither
`"Completed"` nor `"Failed"` (e.g. `"Pending"`, `"InProgress"`). -/
def nonTerminalResp (j : Json) : Bool :=
  match j.getItem "status" with
  | .ok s => !(s.eqStr "Completed") && !(s.eqStr "Failed")
  | .error _ => false

/-- Whether a run ended by sending an HTTP response (as opposed to aborting
on an uncaught exception, in which case `BaseHTTPRequestHandler` sends
nothing on behalf of `do_POST`). -/
def sendsResponse (run : RunTrace × Except PyError HttpResponse) : Bool :=
  match run.2 with
  | .ok _ => true
  | .error _ => false

/-- A submit response carrying a job id, as `create_project` returns on
success (the decoded JSON has an `id` field). -/
def sampleProject : Json := Json.obj [("id", Json.str "proj-1")]

/-- A status response with `status = "Pending"`. -/
def pendingResp : Json := Json.obj [("status", Json.str "Pending")]

/-- A status response with `status = "InProgress"`. -/
def inProgressResp : Json := Json.obj [("status", Json.str "InProgress")]

/-- A status response with `status = "Completed"` and an empty
`outputFileDetails` list. -/
def completedEmptyResp : Json :=
  Json.obj [("status", Json.str "Completed"), ("outputFileDetails", Json.arr [])]

/-- A status response with `status = "Failed"` and
`statusDescription = "render error"`. -/
def failedRenderErrorResp : Json :=
  Json.obj [("status", Json.str "Failed"),
            ("statusDescription", Json.str "render error")]

/-- Remote status sequence: `Pending` on the first query, then `Failed`
with description `"render error"` (spec scenario D). -/
def scenarioDResponses : Nat → Json := fun i =>
  match i with
  | 0 => pendingResp
  | _ => failedRenderErrorResp

/-- Remote status sequence `[Pending, InProgress, Completed]`. -/
def threeStepResponses : Nat → Json := fun i =>
  match i with
  | 0 => pendingResp
  | 1 => inProgressResp
  | _ => completedEmptyResp

/-- Remote status sequence: terminal (`Completed`) from the second query on. -/
def terminalAtOneResponses : Nat → Json := fun i =>
  match i with
  | 0 => pendingResp
  | _ => completedEmptyResp

/-- A submit response with no `id` field, as an authentication rejection
decoded from the error body would produce. -/
def authRejectedProject : Json := Json.obj [("error", Json.str "invalid_client")]

/-! ## Helper lemmas about the polling loop -/

theorem downloadItems_counters (items : List Json) (tr : RunTrace) :
    (downloadItems items tr).1.sleeps = tr.sleeps ∧
    (downloadItems items tr).1.queries = tr.queries := by
  induction items generalizing tr with
  | nil => exact ⟨rfl, rfl⟩
  | cons ri rest ih =>
    simp only [downloadItems]
    cases ri.getItem "url" with
    | error e => exact ⟨rfl, rfl⟩
    | ok u =>
      cases ri.getItem "name" with
      | error e => exact ⟨rfl, rfl⟩
      | ok n => exact ih _

theorem iterateFileDetails_counters (fileDetails : Json) (tr : RunTrace) :
    (iterateFileDetails fileDetails tr).1.sleeps = tr.sleeps ∧
    (iterateFileDetails fileDetails tr).1.queries = tr.queries := by
  cases fileDetails with
  | arr items => exact downloadItems_counters items tr
  | null => exact ⟨rfl, rfl⟩
  | bool b => exact ⟨rfl, rfl⟩
  | num n => exact ⟨rfl, rfl⟩
  | str s => exact ⟨rfl, rfl⟩
  | obj kvs => exact ⟨rfl, rfl⟩

theorem iterateFileDetails_counters_eq {fileDetails : Json} {tr tr2 : RunTrace}
    {res : Except PyError Unit} (h : iterateFileDetails fileDetails tr = (tr2, res)) :
    tr2.sleeps = tr.sleeps ∧ tr2.queries = tr.queries := by
  have h0 := iterateFileDetails_counters fileDetails tr
  rw [h] at h0
  exact h0

theorem pollLoop_queries_le (responses : Nat → Json) (project : Json)
    (remaining : Nat) (isPending isS : Bool) (fd : String) (tr : RunTrace) :
    (pollLoop responses project isPending remaining isS fd tr).1.queries ≤
      tr.queries + remaining := by
  induction remaining generalizing isPending isS fd tr with
  | zero => cases isPending <;> simp [pollLoop]
  | succ r ih =>
    cases isPending
    · simp [pollLoop]
    · simp only [pollLoop]
      split
      · simp
      · split
        · simp
        · split
          · split
            · simp
            · split
              next tr3 e heq =>
                have h3 := iterateFileDetails_counters_eq heq
                simp at h3 ⊢
                omega
              next tr3 heq =>
                have h3 := iterateFileDetails_counters_eq heq
                simp at h3 ⊢
                omega
          · split
            · split
              · simp
              · next fdv heq => exact absurd heq (by simp [Json.getAttr])
            · have hr := ih true isS fd
                { sleeps := tr.sleeps + 1, queries := tr.queries + 1, downloads := tr.downloads }
              simp at hr ⊢
              omega

theorem pollLoop_sleeps_eq_queries (responses : Nat → Json) (project : Json)
    (idv : Json) (hid : project.getItem "id" = Except.ok idv)
    (remaining : Nat) (isPending isS : Bool) (fd : String) (tr : RunTrace)
    (hs : tr.sleeps = tr.queries) :
    (pollLoop responses project isPending remaining isS fd tr).1.sleeps =
      (pollLoop responses project isPending remaining isS fd tr).1.queries := by
  induction remaining generalizing isPending isS fd tr with
  | zero => cases isPending <;> simpa [pollLoop] using hs
  | succ r ih =>
    cases isPending
    · simpa [pollLoop] using hs
    · simp only [pollLoop]
      split
      next x e heq => rw [hid] at heq; exact absurd heq (by simp)
      next x idv2 heq =>
        split
        next y e heq2 => simpa using hs
        next y s heq2 =>
          split
          · split
            next z e heq3 => simpa using hs
            next z fileDetails heq3 =>
              split
              next p tr3 e heq4 =>
                have h3 := iterateFileDetails_counters_eq heq4
                simp at h3 ⊢
                omega
              next p tr3 heq4 =>
                have h3 := iterateFileDetails_counters_eq heq4
                simp only [pollLoop]
                simp at h3 ⊢
                omega
          · split
            · split
              next z e heq3 => simpa using hs
              next z fdv heq3 => exact absurd heq3 (by simp [Json.getAttr])
            · exact ih true isS fd
                { sleeps := tr.sleeps + 1, queries := tr.queries + 1, downloads := tr.downloads }
                (by simp [hs])

theorem pollLoop_terminal_stops (responses : Nat → Json) (project : Json)
    (k : Nat) (hterm : terminalResp (responses k) = true)
    (remaining : Nat) (isPending isS : Bool) (fd : String) (tr : RunTrace)
    (hq : tr.queries ≤ k) :
    (pollLoop responses project isPending remaining isS fd tr).1.queries ≤ k + 1 := by
  induction remaining generalizing isPending isS fd tr with
  | zero => cases isPending <;> simp [pollLoop] <;> omega
  | succ r ih =>
    cases isPending
    · simp [pollLoop]; omega
    · simp only [pollLoop]
      split
      · simp; omega
      · split
        · simp; omega
        · split
          · split
            · simp; omega
            · split
              next p tr3 e heq4 =>
                have h3 := iterateFileDetails_counters_eq heq4
                simp at h3 ⊢
                omega
              next p tr3 heq4 =>
                have h3 := iterateFileDetails_counters_eq heq4
                simp only [pollLoop]
                simp at h3 ⊢
                omega
          · split
            · split
              · simp; omega
              · next z fdv heq3 => exact absurd heq3 (by simp [Json.getAttr])
            · next y s heq2 hc hf =>
                rcases Nat.lt_or_ge tr.queries k with hlt | hge
                · exact ih true isS fd
                    { sleeps := tr.sleeps + 1, queries := tr.queries + 1, downloads := tr.downloads }
                    (by simp; omega)
                · have hk : tr.queries = k := Nat.le_antisymm hq hge
                  rw [terminalResp, ← hk, heq2] at hterm
                  simp [hc, hf] at hterm

theorem nonTerminalResp_spec {j : Json} (h : nonTerminalResp j = true) :
    ∃ s, j.getItem "status" = Except.ok s ∧ s.eqStr "Completed" = false ∧
      s.eqStr "Failed" = false := by
  unfold nonTerminalResp at h
  cases hst : j.getItem "status" with
  | error e => rw [hst] at h; simp at h
  | ok s =>
    rw [hst] at h
    simp only [Bool.and_eq_true, Bool.not_eq_true'] at h
    exact ⟨s, rfl, h.1, h.2⟩

theorem pollLoop_all_nonterminal (responses : Nat → Json) (project : Json)
    (idv : Json) (hid : project.getItem "id" = Except.ok idv)
    (remaining : Nat) (isS : Bool) (fd : String) (tr : RunTrace)
    (hnt : ∀ i, i < tr.queries + remaining → nonTerminalResp (responses i) = true) :
    pollLoop responses project true remaining isS fd tr =
      ({ sleeps := tr.sleeps + remaining, queries := tr.queries + remaining,
         downloads := tr.downloads }, Except.ok (isS, fd)) := by
  induction remaining generalizing isS fd tr with
  | zero => simp [pollLoop]
  | succ r ih =>
    obtain ⟨s, hst, hc, hf⟩ := nonTerminalResp_spec (hnt tr.queries (by omega))
    simp only [pollLoop, hid]
    rw [hst]
    simp only [hc, hf, Bool.false_eq_true, if_false]
    rw [ih isS fd
      { sleeps := tr.sleeps + 1, queries := tr.queries + 1, downloads := tr.downloads }
      (by intro i hi; exact hnt i (by simp at hi; omega))]
    simp only [Prod.mk.injEq, RunTrace.mk.injEq, and_true, true_and]
    omega

/-! ## Helper lemmas about `download_file` -/

theorem readChunks_flatten (body : List Nat) : (readChunks body).flatten = body := by
  induction body using readChunks.induct with
  | case1 => simp [readChunks]
  | case2 x hx ih =>
    rw [readChunks.eq_def]
    simp only [hx, reduceDIte]
    simp [ih]

theorem readChunks_chunk_le (body : List Nat) :
    ∀ c ∈ readChunks body, c.length ≤ chunk_size := by
  induction body using readChunks.induct with
  | case1 => simp [readChunks]
  | case2 x hx ih =>
    rw [readChunks.eq_def]
    simp only [hx, reduceDIte]
    intro c hc
    rcases List.mem_cons.mp hc with h | h
    · subst h; exact List.length_take_le _ _
    · exact ih c h

theorem download_file_events_released (events : List ReadEvent) (w : List Nat) :
    (download_file_events events w).released =
      !(download_file_events events w).raised := by
  induction events generalizing w with
  | nil => rfl
  | cons e rest ih =>
    cases e with
    | readErr => rfl
    | chunk data wok =>
      cases data with
      | nil => cases wok <;> rfl
      | cons b bs =>
        cases wok
        · rfl
        · exact ih _

theorem pollLoop_id_error (responses : Nat → Json) (project : Json) (e : PyError)
    (hid : project.getItem "id" = Except.error e)
    (remaining : Nat) (hr : 0 < remaining) (isS : Bool) (fd : String) (tr : RunTrace) :
    pollLoop responses project true remaining isS fd tr =
      ({ sleeps := tr.sleeps + 1, queries := tr.queries, downloads := tr.downloads },
        Except.error e) := by
  cases remaining with
  | zero => exact absurd hr (by simp)
  | succ r => simp only [pollLoop, hid]

/-! ## Claims -/

/-- C1: spec scenario D — submit succeeds and the status becomes `Failed` on
query 2 with description `"render error"`.  Polling does stop at query 2 (no
third query is issued), but the run does not produce a failure outcome with
reason `"render error"`: the `Failed` branch evaluates
`project_results.statusDescription`, an attribute access on a dict, so the
handler aborts with `AttributeError` and no response is sent.  The claim
matches the code's evident intent (`project_results["statusDescription"]`,
as every other field access in the script); the attribute access is a slip
that makes the branch unreachable in a successful form. -/
theorem c1_failed_branch_attribute_error :
    do_POST (Except.ok sampleProject) scenarioDResponses =
      ({ sleeps := 2, queries := 2, downloads := [] },
        Except.error (PyError.attributeError "statusDescription")) := by
  rfl

/-- C2 counterexample: in a run whose very first status query returns
`Completed`, exactly one query is issued yet one `time.sleep(3)` has already
happened — the first status query is NOT issued without a preceding wait,
because `time.sleep(3)` is the first statement of the loop body
(line 424). -/
theorem c2_first_query_preceded_by_wait_cex :
    (do_POST (Except.ok sampleProject) (fun _ => completedEmptyResp)).1.queries = 1 ∧
    (do_POST (Except.ok sampleProject) (fun _ => completedEmptyResp)).1.sleeps ≠ 0 := by
  constructor
  · rfl
  · decide

/-- C2 amended: the fixed `interval` delay is waited before every status
check, including the very first — in any run whose submit response carries
an id, the number of sleeps equals the number of status queries issued. -/
theorem c2_wait_before_every_query (responses : Nat → Json) (project idv : Json)
    (hid : project.getItem "id" = Except.ok idv) :
    (do_POST (Except.ok project) responses).1.sleeps =
      (do_POST (Except.ok project) responses).1.queries := by
  unfold do_POST
  dsimp only
  cases hp : pollLoop responses project true maxAttempts false ""
      { sleeps := 0, queries := 0, downloads := [] } with
  | mk tr res =>
    have hh := pollLoop_sleeps_eq_queries responses project idv hid maxAttempts true false ""
      { sleeps := 0, queries := 0, downloads := [] } rfl
    rw [hp] at hh
    simp at hh
    cases res with
    | error e => simpa using hh
    | ok p =>
      cases p with
      | mk b fd => cases b <;> simpa using hh

/-- C2 witness: a concrete run (id present, statuses all `Pending`) at which
the amended theorem applies. -/
theorem c2_wait_before_every_query_witness :
    sampleProject.getItem "id" = Except.ok (Json.str "proj-1") ∧
    (do_POST (Except.ok sampleProject) (fun _ => pendingResp)).1.sleeps =
      (do_POST (Except.ok sampleProject) (fun _ => pendingResp)).1.queries :=
  ⟨rfl, c2_wait_before_every_query (fun _ => pendingResp) sampleProject
    (Json.str "proj-1") rfl⟩

/-- C3 counterexample: with status sequence `[Pending] × 20` the attempt
budget is exhausted and the run answers with body exactly
`"Failed to render a file."` — the same generic render-failure message as
any other failure, with empty details; the reason does not identify a
timeout (the word timeout does not occur in it), contradicting the claim
that the reason identifies a timeout distinguishable from a remote job
failure. -/
theorem c3_timeout_reason_cex :
    (do_POST (Except.ok sampleProject) (fun _ => pendingResp)).2 =
      Except.ok { status := 200, contentType := "text/html",
                  body := "Failed to render a file." } ∧
    ¬ ("timeout".toList <:+: "Failed to render a file.".toList) := by
  constructor
  · rfl
  · decide

/-- C3 amended: when all `maxAttempts` queried statuses are non-terminal,
the run issues exactly `maxAttempts` queries, downloads nothing, and sends
the HTTP 200 response with body exactly `"Failed to render a file."`
(`failureDetails` is still the empty string) — a generic failure report that
does not identify a timeout and is not distinguishable from a remote
failure with an empty description. -/
theorem c3_budget_exhausted_generic_failure (responses : Nat → Json)
    (project idv : Json) (hid : project.getItem "id" = Except.ok idv)
    (hnt : ∀ i, i < maxAttempts → nonTerminalResp (responses i) = true) :
    do_POST (Except.ok project) responses =
      ({ sleeps := maxAttempts, queries := maxAttempts, downloads := [] },
        Except.ok { status := 200, contentType := "text/html",
                    body := "Failed to render a file." }) := by
  unfold do_POST
  dsimp only
  rw [pollLoop_all_nonterminal responses project idv hid maxAttempts false ""
    { sleeps := 0, queries := 0, downloads := [] } (by simpa using hnt)]
  rfl

/-- C3 witness: the all-`Pending` run satisfies both hypotheses of the
amended theorem. -/
theorem c3_budget_exhausted_generic_failure_witness :
    (sampleProject.getItem "id" = Except.ok (Json.str "proj-1") ∧
      ∀ i, i < maxAttempts → nonTerminalResp ((fun _ => pendingResp) i) = true) ∧
    do_POST (Except.ok sampleProject) (fun _ => pendingResp) =
      ({ sleeps := maxAttempts, queries := maxAttempts, downloads := [] },
        Except.ok { status := 200, contentType := "text/html",
                    body := "Failed to render a file." }) :=
  ⟨⟨rfl, by decide⟩,
    c3_budget_exhausted_generic_failure (fun _ => pendingResp) sampleProject
      (Json.str "proj-1") rfl (by decide)⟩

/-- C4 counterexample: when submission fails with an authentication
rejection (the submit response decodes to JSON without an `id` field),
zero status queries are issued — but the orchestrator does not transition
to a failure outcome: the first loop iteration raises `KeyError` at
`project["id"]` and no HTTP response is sent at all. -/
theorem c4_submit_failure_cex :
    do_POST (Except.ok authRejectedProject) (fun _ => pendingResp) =
      ({ sleeps := 1, queries := 0, downloads := [] },
        Except.error (PyError.keyError "id")) ∧
    sendsResponse (do_POST (Except.ok authRejectedProject) (fun _ => pendingResp)) = false := by
  constructor
  · rfl
  · rfl

/-- C4 amended: when the submit response carries no job id, zero status
queries are issued and the run aborts with the uncaught exception from
`project["id"]` (after one sleep), producing no failure outcome; likewise
an exception raised by `create_project` itself propagates with an empty
trace.  In neither case is an `Outcome.Failure` carrying the submission
error returned to the caller. -/
theorem c4_submit_failure_no_outcome (responses : Nat → Json) (project : Json)
    (e : PyError) (hid : project.getItem "id" = Except.error e) :
    do_POST (Except.ok project) responses =
      ({ sleeps := 1, queries := 0, downloads := [] }, Except.error e) ∧
    (∀ e2 : PyError, ∀ responses2 : Nat → Json,
      do_POST (Except.error e2) responses2 =
        ({ sleeps := 0, queries := 0, downloads := [] }, Except.error e2)) := by
  constructor
  · unfold do_POST
    dsimp only
    rw [pollLoop_id_error responses project e hid maxAttempts (by decide) false ""
      { sleeps := 0, queries := 0, downloads := [] }]
  · intro e2 responses2
    rfl

/-- C4 witness: the authentication-rejection submit response satisfies the
hypothesis of the amended theorem. -/
theorem c4_submit_failure_no_outcome_witness :
    authRejectedProject.getItem "id" = Except.error (PyError.keyError "id") ∧
    do_POST (Except.ok authRejectedProject) (fun _ => pendingResp) =
      ({ sleeps := 1, queries := 0, downloads := [] },
        Except.error (PyError.keyError "id")) :=
  ⟨rfl, (c4_submit_failure_no_outcome (fun _ => pendingResp) authRejectedProject
    (PyError.keyError "id") rfl).1⟩

/-- C5: for every submit result and every remote status sequence, a run
issues at most `maxAttempts` (20) status queries; the polling loop is a
total function of the bounded budget, so it terminates. -/
theorem c5_at_most_maxAttempts_queries (submitResult : Except PyError Json)
    (responses : Nat → Json) :
    (do_POST submitResult responses).1.queries ≤ maxAttempts := by
  cases submitResult with
  | error e => simp [do_POST]
  | ok project =>
    unfold do_POST
    dsimp only
    cases hp : pollLoop responses project true maxAttempts false ""
        { sleeps := 0, queries := 0, downloads := [] } with
    | mk tr res =>
      have hh := pollLoop_queries_le responses project maxAttempts true false ""
        { sleeps := 0, queries := 0, downloads := [] }
      rw [hp] at hh
      simp at hh
      cases res with
      | error e => simpa using hh
      | ok p =>
        cases p with
        | mk b fd => cases b <;> simpa using hh

/-- C6: once a terminal status (`Completed` or `Failed`) is observed it is
never re-queried — if the response to query k is terminal, the whole run
issues at most k+1 status queries. -/
theorem c6_terminal_stops_polling (submitResult : Except PyError Json)
    (responses : Nat → Json) (k : Nat)
    (hterm : terminalResp (responses k) = true) :
    (do_POST submitResult responses).1.queries ≤ k + 1 := by
  cases submitResult with
  | error e => simp [do_POST]
  | ok project =>
    unfold do_POST
    dsimp only
    cases hp : pollLoop responses project true maxAttempts false ""
        { sleeps := 0, queries := 0, downloads := [] } with
    | mk tr res =>
      have hh := pollLoop_terminal_stops responses project k hterm maxAttempts true false ""
        { sleeps := 0, queries := 0, downloads := [] } (by simp)
      rw [hp] at hh
      simp at hh
      cases res with
      | error e => simpa using hh
      | ok p =>
        cases p with
        | mk b fd => cases b <;> simpa using hh

/-- C6 witness: terminal (`Completed`) on the second query, so at most 2
queries are issued. -/
theorem c6_terminal_stops_polling_witness :
    terminalResp (terminalAtOneResponses 1) = true ∧
    (do_POST (Except.ok sampleProject) terminalAtOneResponses).1.queries ≤ 1 + 1 :=
  ⟨rfl, c6_terminal_stops_polling (Except.ok sampleProject) terminalAtOneResponses 1 rfl⟩

/-- C7: with remote status sequence `[Pending, InProgress, Completed]` the
run returns the success outcome after exactly 3 status queries — not fewer,
not more. -/
theorem c7_three_step_sequence_three_queries :
    do_POST (Except.ok sampleProject) threeStepResponses =
      ({ sleeps := 3, queries := 3, downloads := [] },
        Except.ok { status := 200, contentType := "text/html",
                    body := "Successfully saved a file." }) := by
  rfl

/-- C8: `fetch` over N descriptors performs exactly N `download_file` calls,
names each local file `{name}.pdf` (the script's extension), writes for each
descriptor exactly the bytes of the remote body — read in chunks of at most
`chunk_size` = 1 MiB — so the total bytes written equal the sum of the
remote content lengths. -/
theorem c8_fetch_round_trip (remote : String → List Nat)
    (details : List ResultDescriptor) :
    (fetch remote details).length = details.length ∧
    (fetch remote details).map Prod.fst = details.map (fun d => d.name ++ ".pdf") ∧
    ((fetch remote details).map (fun f => f.2.length)).sum
      = (details.map (fun d => (remote d.url).length)).sum ∧
    ∀ d ∈ details, ∀ c ∈ readChunks (remote d.url), c.length ≤ chunk_size := by
  refine ⟨by simp [fetch], ?_, ?_, ?_⟩
  · simp [fetch, download_file]
  · simp [fetch, download_file, readChunks_flatten, Function.comp_def]
  · intro d _ c hc
    exact readChunks_chunk_le _ c hc

/-- C8 witness: one descriptor, a three-byte remote body. -/
theorem c8_fetch_round_trip_witness :
    (fetch (fun _ => [1, 2, 3]) [{ url := "u", name := "n" }]).length = 1 :=
  (c8_fetch_round_trip (fun _ => [1, 2, 3]) [{ url := "u", name := "n" }]).1

/-- C9 counterexample: on the exit path where the first `r.read` raises, the
download aborts and `r.release_conn()` does not run — the transport resource
is not released on every exit path, because line 197 is an ordinary
statement after the `with` block, not a `finally`. -/
theorem c9_read_error_leaks_connection_cex :
    (download_file_run [ReadEvent.readErr]).raised = true ∧
    (download_file_run [ReadEvent.readErr]).released = false := by
  constructor <;> rfl

/-- C9 amended: the download releases its pooled connection exactly on the
non-raising exit path — `release_conn` runs when the read loop breaks on an
empty read, and is skipped whenever a read or a local write raises. -/
theorem c9_release_only_on_success (events : List ReadEvent) :
    (download_file_run events).released = !(download_file_run events).raised :=
  download_file_events_released events []

/-- C10: every run that produces an outcome answers with HTTP status 200
and content type `text/html`, for success and failure alike; the two
outcomes differ only in the body text — `"Successfully saved a file."`
versus `"Failed to render a file."` followed by the failure details. -/
theorem c10_http_200_both_outcomes (submitResult : Except PyError Json)
    (responses : Nat → Json) (r : HttpResponse)
    (h : (do_POST submitResult responses).2 = Except.ok r) :
    r.status = 200 ∧ r.contentType = "text/html" ∧
      (r.body = "Successfully saved a file." ∨
        ∃ fd, r.body = "Failed to render a file." ++ fd) := by
  cases submitResult with
  | error e => simp [do_POST] at h
  | ok project =>
    unfold do_POST at h
    dsimp only at h
    cases hp : pollLoop responses project true maxAttempts false ""
        { sleeps := 0, queries := 0, downloads := [] } with
    | mk tr res =>
      rw [hp] at h
      cases res with
      | error e => simp at h
      | ok p =>
        cases p with
        | mk b fd =>
          cases b with
          | false =>
            simp at h
            rw [← h]
            exact ⟨rfl, rfl, Or.inr ⟨fd, rfl⟩⟩
          | true =>
            simp at h
            rw [← h]
            exact ⟨rfl, rfl, Or.inl rfl⟩

/-- C10 witness: the one-query success run sends exactly the HTTP 200
success response. -/
theorem c10_http_200_both_outcomes_witness :
    ({ status := 200, contentType := "text/html",
       body := "Successfully saved a file." } : HttpResponse).status = 200 :=
  (c10_http_200_both_outcomes (Except.ok sampleProject) (fun _ => completedEmptyResp)
    { status := 200, contentType := "text/html", body := "Successfully saved a file." }
    rfl).1
